import Mathlib

/-!
Verification of the XML item importer admin-UI form scripts.

The repository consists of three Frappe form scripts:

* the `XML Import Configuration` form script (the large file: manual
  importing, stream-length check, feed debug, aggressive import check,
  pasted-content debug buttons and their result rendering);
* a reduced `XML Import Configuration` form script (manual import button
  only);
* the `XML Import Settings` form script (`test_xml_connection` and
  `trigger_manual_import` helpers).

The scripts build HTML tables from RPC result objects and dispatch server
methods via `frappe.call`.  We embed this shallowly: each rendered
table row or alert block becomes a constructor of a row type carrying its
dynamic data, each callback becomes a pure function from the result record
to the list of rows it renders, and each stateful flow (alerts, form
disable/enable, RPC dispatch, reload) becomes a pure function from the
call outcome to the list of UI actions performed, in order.  JavaScript
falsy string fields are modelled as `Option String` with `none` for a
falsy value (absent, null or empty); possibly missing numeric fields as
`Option Nat`.
-/

/-- Substring containment: the characters of `needle` occur contiguously
inside `hay`.  Used to state what a rendered text fragment contains. -/
def strContains (hay needle : String) : Prop :=
  ∃ pre post, hay.data = pre ++ needle.data ++ post

/-- The character data of an appended string is the appended character
data. -/
theorem strData_append (a b : String) : (a ++ b).data = a.data ++ b.data := by
  cases a
  cases b
  rfl

/-- Every character of a string is a character of any string containing
it. -/
theorem strContains_mem (hay needle : String) (h : strContains hay needle) :
    ∀ c, c ∈ needle.data → c ∈ hay.data := by
  rcases h with ⟨pre, post, hdat⟩
  intro c hc
  rw [hdat]
  simp [List.mem_append]
  tauto

/-- Decimal digit characters of `n`, most significant first, with explicit
fuel so the definition is structural.  Models how a JavaScript template
literal stringifies a non-negative integer field. -/
def decimalDigitsAux : Nat → Nat → List Char
  | 0, _ => []
  | fuel + 1, n =>
    if n < 10 then [Char.ofNat (48 + n)]
    else decimalDigitsAux fuel (n / 10) ++ [Char.ofNat (48 + n % 10)]

/-- JavaScript stringification of a non-negative integer. -/
def natToJsString (n : Nat) : String :=
  String.mk (decimalDigitsAux (n + 1) n)

/-- Every character produced by `decimalDigitsAux` is a decimal digit
character. -/
theorem decimalDigitsAux_mem_digits :
    ∀ fuel n c, c ∈ decimalDigitsAux fuel n → c ∈ ("0123456789".data) := by
  intro fuel
  induction fuel with
  | zero =>
    intro n c h
    simp [decimalDigitsAux] at h
  | succ fuel ih =>
    intro n c h
    simp only [decimalDigitsAux] at h
    by_cases hlt : n < 10
    · rw [if_pos hlt] at h
      simp at h
      subst h
      interval_cases n <;> decide
    · rw [if_neg hlt] at h
      rcases List.mem_append.mp h with h | h
      · exact ih _ _ h
      · simp at h
        subst h
        have hm : n % 10 < 10 := Nat.mod_lt _ (by decide)
        revert hm
        generalize n % 10 = m
        intro hm
        interval_cases m <;> decide

/-- The capital letter I never occurs in the decimal rendering of a
number. -/
theorem capitalI_not_mem_natToJsString (n : Nat) :
    ('I' : Char) ∉ (natToJsString n).data := by
  intro h
  have hd := decimalDigitsAux_mem_digits (n + 1) n _ h
  exact absurd hd (by decide)

/-- One attempt record of the aggressive-import-check result list, as the
form script consumes it.  `error = none` models a falsy `error` field and
`content_length = none` a missing `content_length` field; `order_count` is
the numeric count the server reports. -/
structure Attempt where
  attempt : Nat
  timestamp : String
  error : Option String
  has_orders : Bool
  order_count : Nat
  import_triggered : Bool
  content_length : Option Nat
  deriving DecidableEq

/-- JavaScript comparison `x > k` on a possibly missing numeric field:
comparing `undefined` with a number yields false. -/
def jsGtNat (x : Option Nat) (k : Nat) : Bool :=
  match x with
  | some n => decide (k < n)
  | none => false

/-- The status text the aggressive-import-check callback computes for one
attempt row: starts from No Data, replaced by the error text when the
error field is truthy, else by the orders-found text (extended by the
trigger note when the attempt triggered an import), else by the
empty-orders text when the content length exceeds 100. -/
def attemptStatus (a : Attempt) : String :=
  match a.error with
  | some e => "❌ Error: " ++ e
  | none =>
    if a.has_orders then
      if a.import_triggered then
        "🎉 " ++ natToJsString a.order_count ++ " orders found!" ++ " Import triggered!"
      else
        "🎉 " ++ natToJsString a.order_count ++ " orders found!"
    else if jsGtNat a.content_length 100 then "📭 Empty orders"
    else "No Data"

/-- JavaScript `a || b` on two string fields, as rendered inside a template
literal: the first truthy value, or the text a template literal prints for
an undefined field. -/
def jsOrStr (a b : Option String) : String :=
  ((a.orElse fun _ => b).getD "undefined")

/-- One entry of the `sample_elements` list of a stream-analysis result:
either an order line (truthy `order_id`) or a plain note. -/
structure SampleElem where
  order_id : Option String
  status : String
  item_count : Nat
  note : String
  deriving DecidableEq

/-- The result object of the `check_stream_length` RPC method, as the form
script consumes it. -/
structure StreamResult where
  content_length : Nat
  content_size_human : String
  xml_valid : Bool
  root_tag : String
  element_count : Nat
  sample_elements : List SampleElem
  parse_error : String
  first_100_chars : Option String
  first_500_chars : Option String
  full_xml_content : Option String
  deriving DecidableEq

/-- The rows and blocks of the stream-analysis message, one constructor per
template fragment of the callback, each carrying the dynamic data
interpolated into it. -/
inductive StreamRow where
  | header
  | contentLength (bytes : Nat) (human : String)
  | xmlValid (valid : Bool)
  | rootElement (tag : String)
  | elementsFound (count : Nat) (importTypeLower : String)
  | sampleData (samples : List SampleElem)
  | parseError (err : String)
  | firstChars (text : String)
  | fullXml (content : String)
  | noElementsWarning (importTypeLower : String)
  deriving DecidableEq

/-- The message the `check_stream_length` callback renders, as the ordered
list of its rows and blocks. -/
def renderStream (importType : String) (r : StreamResult) : List StreamRow :=
  [StreamRow.header,
   StreamRow.contentLength r.content_length r.content_size_human,
   StreamRow.xmlValid r.xml_valid]
  ++ (if r.xml_valid then
        [StreamRow.rootElement r.root_tag,
         StreamRow.elementsFound r.element_count importType.toLower]
        ++ (if r.sample_elements.isEmpty then [] else [StreamRow.sampleData r.sample_elements])
      else
        [StreamRow.parseError r.parse_error])
  ++ [StreamRow.firstChars (jsOrStr r.first_100_chars r.first_500_chars)]
  ++ (if r.content_length < 500 then
        match r.full_xml_content with
        | some s => [StreamRow.fullXml s]
        | none => []
      else [])
  ++ (if r.xml_valid ∧ r.element_count = 0 then
        [StreamRow.noElementsWarning importType.toLower]
      else [])

/-- The structural debug dump an `import_from_pasted_content` result may
carry. -/
structure PastedDebugInfo where
  root_tag : String
  direct_children : List String
  total_children : Nat
  all_unique_tags : List String
  deriving DecidableEq

/-- The result object of the `import_from_pasted_content` RPC method, as
the form script consumes it. -/
structure PastedResult where
  content_length : Nat
  xml_valid : Bool
  root_tag : String
  element_count : Nat
  import_status : String
  processed_items : List String
  errors : List String
  debug_info : Option PastedDebugInfo
  parse_error : String
  deriving DecidableEq

/-- The rows of the pasted-XML import result message.  `errorsRow` and
`parseError` are rendered in a text-danger cell. -/
inductive PastedRow where
  | header
  | importTypeRow (importType : String)
  | contentLength (bytes : Nat)
  | xmlValid (valid : Bool)
  | rootElement (tag : String)
  | elementsFound (count : Nat) (importTypeLower : String)
  | importStatus (status : String)
  | processedItems (items : List String)
  | errorsRow (errs : List String)
  | structureDump (info : PastedDebugInfo)
  | parseError (err : String)
  deriving DecidableEq

/-- The message the `import_from_pasted_content` callback renders, as the
ordered list of its rows. -/
def renderPasted (importType : String) (r : PastedResult) : List PastedRow :=
  [PastedRow.header,
   PastedRow.importTypeRow importType,
   PastedRow.contentLength r.content_length,
   PastedRow.xmlValid r.xml_valid]
  ++ (if r.xml_valid then
        [PastedRow.rootElement r.root_tag,
         PastedRow.elementsFound r.element_count importType.toLower,
         PastedRow.importStatus r.import_status]
        ++ (if r.processed_items.isEmpty then []
            else [PastedRow.processedItems r.processed_items])
        ++ (if r.errors.isEmpty then [] else [PastedRow.errorsRow r.errors])
        ++ (match r.debug_info with
            | some d => [PastedRow.structureDump d]
            | none => [])
      else
        [PastedRow.parseError r.parse_error])

/-- The result object of the `debug_xml_feed` RPC method, as the form
script consumes it.  `error = none` models a falsy `error` field,
`content_type = none` a missing content-type header. -/
structure DebugResult where
  url : String
  error : Option String
  status_code : Nat
  content_length : Nat
  content_length_stripped : Nat
  content_type : Option String
  auth_used : Bool
  is_mostly_whitespace : Bool
  is_likely_error : Bool
  raw_content : String
  content : String
  suggested_actions : List String
  deriving DecidableEq

/-- The rows of the feed-debug message.  `errorRow` and `likelyError` are
rendered in a text-danger cell, `mostlyWhitespace` in a text-warning
cell. -/
inductive DebugRow where
  | header
  | urlRow (url : String)
  | errorRow (err : String)
  | statusCode (code : Nat)
  | contentLength (bytes : Nat) (strippedBytes : Nat)
  | contentType (value : String)
  | authUsed (used : Bool)
  | mostlyWhitespace
  | likelyError
  | rawContent (text : String)
  | formattedContent (text : String)
  | suggestions (actions : List String)
  deriving DecidableEq

/-- The message the `debug_xml_feed` callback renders, as the ordered list
of its rows: the URL row always; then, when the error field is truthy,
only the danger-styled error row; otherwise the full analysis rows with
the two heuristics rows and the suggestions row present conditionally. -/
def renderDebug (r : DebugResult) : List DebugRow :=
  [DebugRow.header, DebugRow.urlRow r.url]
  ++ (match r.error with
      | some e => [DebugRow.errorRow e]
      | none =>
        [DebugRow.statusCode r.status_code,
         DebugRow.contentLength r.content_length r.content_length_stripped,
         DebugRow.contentType (r.content_type.getD "Not specified"),
         DebugRow.authUsed r.auth_used]
        ++ (if r.is_mostly_whitespace then [DebugRow.mostlyWhitespace] else [])
        ++ (if r.is_likely_error then [DebugRow.likelyError] else [])
        ++ [DebugRow.rawContent r.raw_content,
            DebugRow.formattedContent r.content]
        ++ (if r.suggested_actions.isEmpty then []
            else [DebugRow.suggestions r.suggested_actions]))

/-- The server method names dispatched through `frappe.call` by the large
`XML Import Configuration` form script, in source order of the call
sites. -/
def configFormDispatches : List String :=
  ["trigger_manual_import", "check_stream_length", "debug_xml_feed",
   "aggressive_import_check", "import_from_pasted_content"]

/-- The server method names dispatched through `frappe.call` by the
`XML Import Settings` form script, that is by `test_xml_connection` and
by its manual-import helper. -/
def settingsFormDispatches : List String :=
  ["test_connection", "trigger_manual_import"]

/-- The server method names dispatched through `frappe.call` by the reduced
`XML Import Configuration` form script. -/
def altConfigFormDispatches : List String :=
  ["trigger_manual_import"]

/-- All server method names the three form scripts ever dispatch. -/
def allDispatchedMethods : List String :=
  configFormDispatches ++ settingsFormDispatches ++ altConfigFormDispatches

/-- The confirmation text of the aggressive-import-check button dialog. -/
def aggressiveConfirmText : String :=
  "This will check the feed 5 times (50 seconds total) and import immediately if orders are found. Continue?"

/-- The aggressive-import-check button handler: the server methods it
dispatches, given whether the operator confirmed the dialog.  The
`frappe.call` sits inside the dialog confirmation callback, so nothing is
dispatched without confirmation. -/
def aggressiveCheckButtonHandler (confirmed : Bool) : List String :=
  if confirmed then ["aggressive_import_check"] else []

/-- A truthy RPC response message with its `success` flag and `message`
text. -/
structure RpcMessage where
  success : Bool
  message : String
  deriving DecidableEq

/-- How a `frappe.call` completes: the callback runs with a possibly
missing response message, or the transport fails and the error handler
runs with a possibly missing error message. -/
inductive CallOutcome where
  | callback (message : Option RpcMessage)
  | failure (errMessage : Option String)
  deriving DecidableEq

/-- A UI side effect of a form-script flow, in the order performed. -/
inductive UIAction where
  | showAlert (indicator : String) (message : String)
  | msgprint (title : String) (message : String) (indicator : String)
  | msgprintSimple (message : String)
  | disableForm
  | enableForm
  | rpcCall (method : String)
  | reloadDoc
  deriving DecidableEq

/-- The confirmed manual-import flow of the `XML Import Settings` form
script (`trigger_manual_import` helper): progress alert, disable the form,
dispatch the RPC, then the completion path of the given outcome. -/
def manualImportFlow (o : CallOutcome) : List UIAction :=
  [UIAction.showAlert "blue" "Starting import...",
   UIAction.disableForm,
   UIAction.rpcCall "trigger_manual_import"]
  ++ (match o with
      | CallOutcome.callback msg =>
        UIAction.enableForm ::
        (match msg with
         | some m =>
           if m.success then
             [UIAction.showAlert "green" "Import completed successfully",
              UIAction.msgprint "Import Successful" m.message "green",
              UIAction.reloadDoc]
           else
             [UIAction.showAlert "red" "Import failed",
              UIAction.msgprint "Import Failed" m.message "red"]
         | none =>
           [UIAction.showAlert "red" "Import failed",
            UIAction.msgprint "Import Failed" "Import failed" "red"])
      | CallOutcome.failure err =>
        [UIAction.enableForm,
         UIAction.showAlert "red" "Import failed",
         UIAction.msgprint "Import Error" (err.getD "Import failed with error") "red"])

/-- The connection-test flow of the `XML Import Settings` form script
(`test_xml_connection` helper): with an empty feed URL only a prompt is
shown; otherwise a progress alert, the RPC dispatch, and the completion
path of the given outcome. -/
def testConnectionFlow (url : String) (o : CallOutcome) : List UIAction :=
  if url = "" then
    [UIAction.msgprintSimple "Please enter XML Feed URL first"]
  else
    [UIAction.showAlert "blue" "Testing connection...",
     UIAction.rpcCall "test_connection"]
    ++ (match o with
        | CallOutcome.callback msg =>
          (match msg with
           | some m =>
             if m.success then
               [UIAction.showAlert "green" m.message,
                UIAction.msgprint "Connection Test Successful" m.message "green"]
             else
               [UIAction.showAlert "red" m.message,
                UIAction.msgprint "Connection Test Failed" m.message "red"]
           | none =>
             [UIAction.showAlert "red" "Connection test failed",
              UIAction.msgprint "Connection Test Failed" "Connection test failed" "red"])
        | CallOutcome.failure _ =>
          [UIAction.showAlert "red" "Connection test failed"])

/-- The custom buttons the large `XML Import Configuration` form script
adds on refresh, as a function of the document state: `enabled` flag,
feed URL (empty string for a falsy field) and whether the document is
unsaved. -/
def configRefreshButtons (enabled : Bool) (url : String) (isNew : Bool) : List String :=
  (if enabled = true ∧ url ≠ "" ∧ isNew = false
   then ["▶️ Trigger Manual Import"] else [])
  ++ (if url ≠ "" ∧ isNew = false then ["🔍 Check Stream Length"] else [])
  ++ (if url ≠ "" ∧ isNew = false then ["🐛 Debug XML Feed"] else [])
  ++ (if url ≠ "" ∧ isNew = false then ["🎯 Aggressive Import Check"] else [])
  ++ (if isNew = false then ["📋 Debug Import from Pasted XML"] else [])

/-- The custom buttons the reduced `XML Import Configuration` form script
adds on refresh. -/
def altConfigRefreshButtons (enabled : Bool) (url : String) (isNew : Bool) : List String :=
  if enabled = true ∧ url ≠ "" ∧ isNew = false
  then ["Trigger Manual Import"] else []

/-- Claim C1: for every attempt record of the aggressive-import-check
result list, the rendered status text follows this precedence: a truthy
error field yields the error status containing that error text; otherwise
a truthy has_orders yields a status reporting the order count which
contains the trigger note exactly when the attempt triggered an import;
otherwise a content length above 100 yields the empty-orders status; and
otherwise the no-data status. -/
theorem aggressive_attempt_status_spec (a : Attempt) :
    (∀ e, a.error = some e →
        attemptStatus a = "❌ Error: " ++ e ∧ strContains (attemptStatus a) e)
  ∧ (a.error = none → a.has_orders = true →
        strContains (attemptStatus a) (natToJsString a.order_count)
      ∧ (strContains (attemptStatus a) "Import triggered!" ↔
          a.import_triggered = true))
  ∧ (a.error = none → a.has_orders = false → jsGtNat a.content_length 100 = true →
        attemptStatus a = "📭 Empty orders")
  ∧ (a.error = none → a.has_orders = false → jsGtNat a.content_length 100 = false →
        attemptStatus a = "No Data") := by
  refine ⟨?_, ?_, ?_, ?_⟩
  · intro e he
    have hs : attemptStatus a = "❌ Error: " ++ e := by
      simp [attemptStatus, he]
    refine ⟨hs, ?_⟩
    rw [hs]
    exact ⟨"❌ Error: ".data, [], by rw [strData_append]; simp⟩
  · intro he ho
    cases ht : a.import_triggered with
    | false =>
      have hs : attemptStatus a =
          "🎉 " ++ natToJsString a.order_count ++ " orders found!" := by
        simp [attemptStatus, he, ho, ht]
      constructor
      · rw [hs]
        exact ⟨"🎉 ".data, " orders found!".data, by simp [strData_append]⟩
      · apply iff_of_false _ (by simp [ht])
        rw [hs]
        intro hcon
        have hI := strContains_mem _ _ hcon 'I' (by decide)
        rw [strData_append, strData_append] at hI
        rcases List.mem_append.mp hI with hI | hI
        · rcases List.mem_append.mp hI with hI | hI
          · exact absurd hI (by decide)
          · exact capitalI_not_mem_natToJsString _ hI
        · exact absurd hI (by decide)
    | true =>
      have hs : attemptStatus a =
          "🎉 " ++ natToJsString a.order_count ++ " orders found!"
            ++ " Import triggered!" := by
        simp [attemptStatus, he, ho, ht]
      constructor
      · rw [hs]
        refine ⟨"🎉 ".data,
          " orders found!".data ++ " Import triggered!".data, ?_⟩
        simp [strData_append]
      · apply iff_of_true _ rfl
        rw [hs]
        refine ⟨"🎉 ".data ++ (natToJsString a.order_count).data
            ++ " orders found!".data ++ [' '], [], ?_⟩
        simp [strData_append]
  · intro he ho hgt
    simp [attemptStatus, he, ho, hgt]
  · intro he ho hgt
    simp [attemptStatus, he, ho, hgt]

/-- Claim C1 witness: the status precedence theorem applied to a concrete
attempt whose error field is set. -/
theorem aggressive_attempt_status_spec_witness :
    attemptStatus
        { attempt := 1, timestamp := "t", error := some "boom",
          has_orders := false, order_count := 0, import_triggered := false,
          content_length := some 0 } =
      "❌ Error: " ++ "boom" :=
  ((aggressive_attempt_status_spec _).1 "boom" rfl).1

/-- Claim C2: every stream-analysis message renders the content length in
bytes together with its human-readable size and a content prefix; when the
result is valid XML it additionally renders the root tag and the element
count, and when it is not it renders the parse error and neither the root
tag nor the element count. -/
theorem check_stream_length_rendering (it : String) (r : StreamResult) :
    StreamRow.contentLength r.content_length r.content_size_human ∈ renderStream it r
  ∧ StreamRow.firstChars (jsOrStr r.first_100_chars r.first_500_chars) ∈ renderStream it r
  ∧ (r.xml_valid = true →
        StreamRow.rootElement r.root_tag ∈ renderStream it r
      ∧ StreamRow.elementsFound r.element_count it.toLower ∈ renderStream it r
      ∧ ∀ e, StreamRow.parseError e ∉ renderStream it r)
  ∧ (r.xml_valid = false →
        StreamRow.parseError r.parse_error ∈ renderStream it r
      ∧ (∀ t, StreamRow.rootElement t ∉ renderStream it r)
      ∧ ∀ c s, StreamRow.elementsFound c s ∉ renderStream it r) := by
  obtain ⟨cl, human, valid, root, cnt, samp, perr, f100, f500, fullc⟩ := r
  refine ⟨?_, ?_, ?_, ?_⟩ <;> intros <;>
    cases valid <;> simp_all [renderStream] <;> cases fullc <;> simp_all

/-- Claim C2 witness: the stream rendering theorem applied to a concrete
result that fails XML parsing. -/
theorem check_stream_length_rendering_witness :
    StreamRow.parseError "bad token" ∈
      renderStream "Orders"
        { content_length := 42, content_size_human := "42 B",
          xml_valid := false, root_tag := "", element_count := 0,
          sample_elements := [], parse_error := "bad token",
          first_100_chars := some "<or", first_500_chars := none,
          full_xml_content := none } :=
  ((check_stream_length_rendering "Orders" _).2.2.2 rfl).1

/-- Claim C3: every pasted-XML import message renders the content length
and the validity flag; a valid result additionally renders the root tag,
the element count, the import status, the processed-items row when that
list is non-empty, the danger-styled errors row when that list is
non-empty and the structure dump when debug info is present; an invalid
result renders exactly the header rows followed by the parse error. -/
theorem pasted_import_rendering (it : String) (r : PastedResult) :
    PastedRow.contentLength r.content_length ∈ renderPasted it r
  ∧ PastedRow.xmlValid r.xml_valid ∈ renderPasted it r
  ∧ (r.xml_valid = true →
        PastedRow.rootElement r.root_tag ∈ renderPasted it r
      ∧ PastedRow.elementsFound r.element_count it.toLower ∈ renderPasted it r
      ∧ PastedRow.importStatus r.import_status ∈ renderPasted it r
      ∧ (r.processed_items ≠ [] →
          PastedRow.processedItems r.processed_items ∈ renderPasted it r)
      ∧ (r.errors ≠ [] → PastedRow.errorsRow r.errors ∈ renderPasted it r)
      ∧ (∀ d, r.debug_info = some d →
          PastedRow.structureDump d ∈ renderPasted it r))
  ∧ (r.xml_valid = false →
        renderPasted it r =
          [PastedRow.header, PastedRow.importTypeRow it,
           PastedRow.contentLength r.content_length,
           PastedRow.xmlValid r.xml_valid,
           PastedRow.parseError r.parse_error]) := by
  obtain ⟨cl, valid, root, cnt, ist, items, errs, dbg, perr⟩ := r
  refine ⟨?_, ?_, ?_, ?_⟩ <;> intros <;>
    cases valid <;> simp_all [renderPasted]

/-- Claim C3 witness: the pasted rendering theorem applied to a concrete
result that fails XML parsing. -/
theorem pasted_import_rendering_witness :
    renderPasted "Orders"
        { content_length := 10, xml_valid := false, root_tag := "",
          element_count := 0, import_status := "", processed_items := [],
          errors := [], debug_info := none, parse_error := "oops" } =
      [PastedRow.header, PastedRow.importTypeRow "Orders",
       PastedRow.contentLength 10, PastedRow.xmlValid false,
       PastedRow.parseError "oops"] :=
  (pasted_import_rendering "Orders" _).2.2.2 rfl

/-- Claim C4: when a feed-debug result carries a truthy error field the
message is exactly the header, the URL row and the danger-styled error
row; otherwise it renders the status code, the raw and stripped content
lengths, the content type with its fallback text, the authentication
flag, the raw and formatted content, and the suggested actions when that
list is non-empty. -/
theorem debug_feed_rendering (r : DebugResult) :
    (∀ e, r.error = some e →
        renderDebug r =
          [DebugRow.header, DebugRow.urlRow r.url, DebugRow.errorRow e])
  ∧ (r.error = none →
        DebugRow.urlRow r.url ∈ renderDebug r
      ∧ DebugRow.statusCode r.status_code ∈ renderDebug r
      ∧ DebugRow.contentLength r.content_length r.content_length_stripped
          ∈ renderDebug r
      ∧ DebugRow.contentType (r.content_type.getD "Not specified")
          ∈ renderDebug r
      ∧ DebugRow.authUsed r.auth_used ∈ renderDebug r
      ∧ DebugRow.rawContent r.raw_content ∈ renderDebug r
      ∧ DebugRow.formattedContent r.content ∈ renderDebug r
      ∧ (r.suggested_actions ≠ [] →
          DebugRow.suggestions r.suggested_actions ∈ renderDebug r)) := by
  obtain ⟨url, err, code, cl, cls, ctype, auth, ws, lerr, raw, content, sugg⟩ := r
  refine ⟨?_, ?_⟩ <;> intros <;> cases err <;> simp_all [renderDebug]

/-- Claim C4 witness: the feed-debug rendering theorem applied to a
concrete result with a truthy error field. -/
theorem debug_feed_rendering_witness :
    renderDebug
        { url := "http://feed.example/xml", error := some "timeout",
          status_code := 0, content_length := 0,
          content_length_stripped := 0, content_type := none,
          auth_used := false, is_mostly_whitespace := false,
          is_likely_error := false, raw_content := "", content := "",
          suggested_actions := [] } =
      [DebugRow.header, DebugRow.urlRow "http://feed.example/xml",
       DebugRow.errorRow "timeout"] :=
  (debug_feed_rendering _).1 "timeout" rfl

/-- A feed-debug result carrying both a truthy error field and both
heuristics flags at once. -/
def debugErrWithFlags : DebugResult :=
  { url := "http://feed.example/xml", error := some "timeout",
    status_code := 0, content_length := 0, content_length_stripped := 0,
    content_type := none, auth_used := false, is_mostly_whitespace := true,
    is_likely_error := true, raw_content := "", content := "",
    suggested_actions := [] }

/-- Claim C6 counterexample: the heuristics rows are not shown exactly
when their flags are set: a result whose error field is also truthy sets
both flags yet renders neither row, because the whole analysis block sits
in the else branch of the error check. -/
theorem debug_flag_rows_unconditional_iff_false :
    ¬ (∀ r : DebugResult,
        (DebugRow.mostlyWhitespace ∈ renderDebug r ↔
          r.is_mostly_whitespace = true)
      ∧ (DebugRow.likelyError ∈ renderDebug r ↔ r.is_likely_error = true)) := by
  intro h
  have hws := (h debugErrWithFlags).1.mpr rfl
  simp [renderDebug, debugErrWithFlags] at hws

/-- Claim C6 amended: when the error field is not set, the warning-styled
whitespace row is shown exactly when is_mostly_whitespace is set and the
danger-styled error-content row exactly when is_likely_error is set; when
the error field is set neither heuristics row is shown. -/
theorem debug_flag_rows_iff (r : DebugResult) :
    (r.error = none →
        (DebugRow.mostlyWhitespace ∈ renderDebug r ↔
          r.is_mostly_whitespace = true)
      ∧ (DebugRow.likelyError ∈ renderDebug r ↔ r.is_likely_error = true))
  ∧ (∀ e, r.error = some e →
        DebugRow.mostlyWhitespace ∉ renderDebug r
      ∧ DebugRow.likelyError ∉ renderDebug r) := by
  obtain ⟨url, err, code, cl, cls, ctype, auth, ws, lerr, raw, content, sugg⟩ := r
  refine ⟨?_, ?_⟩ <;> intros <;> cases err <;> simp_all [renderDebug]

/-- Claim C6 amended witness: the heuristics-rows theorem applied to the
concrete result whose error field is truthy. -/
theorem debug_flag_rows_iff_witness :
    DebugRow.mostlyWhitespace ∉ renderDebug debugErrWithFlags :=
  ((debug_flag_rows_iff debugErrWithFlags).2 "timeout" rfl).1

/-- Claim C5: the server method names the three form scripts ever dispatch
through `frappe.call` are exactly the six documented RPC methods. -/
theorem rpc_method_surface (m : String) :
    m ∈ allDispatchedMethods ↔
      m ∈ ["trigger_manual_import", "check_stream_length", "debug_xml_feed",
           "aggressive_import_check", "import_from_pasted_content",
           "test_connection"] := by
  simp [allDispatchedMethods, configFormDispatches, settingsFormDispatches,
    altConfigFormDispatches]
  tauto

/-- Claim C5 witness: the dispatch-surface theorem applied to a concrete
method name. -/
theorem rpc_method_surface_witness :
    ("test_connection" ∈ allDispatchedMethods ↔
      "test_connection" ∈
        ["trigger_manual_import", "check_stream_length", "debug_xml_feed",
         "aggressive_import_check", "import_from_pasted_content",
         "test_connection"]) :=
  rpc_method_surface "test_connection"

/-- Claim C7: the aggressive-import-check confirmation dialog announces 5
feed checks over 50 seconds in total, the handler dispatches the
aggressive_import_check method exactly on confirmation, and it dispatches
nothing without confirmation. -/
theorem aggressive_check_confirmation :
    strContains aggressiveConfirmText "check the feed 5 times (50 seconds total)"
  ∧ aggressiveCheckButtonHandler true = ["aggressive_import_check"]
  ∧ aggressiveCheckButtonHandler false = [] := by
  refine ⟨?_, rfl, rfl⟩
  exact ⟨"This will ".data,
    " and import immediately if orders are found. Continue?".data, by decide⟩

/-- Claim C8: in the settings-form manual import flow the form is disabled
immediately before the trigger_manual_import dispatch, re-enabled on every
completion path, and the document is reloaded exactly when the response
message exists with a truthy success flag. -/
theorem manual_import_form_state (o : CallOutcome) :
    (∃ rest, manualImportFlow o =
        [UIAction.showAlert "blue" "Starting import...",
         UIAction.disableForm,
         UIAction.rpcCall "trigger_manual_import"] ++ rest)
  ∧ UIAction.enableForm ∈ manualImportFlow o
  ∧ (UIAction.reloadDoc ∈ manualImportFlow o ↔
      ∃ m, o = CallOutcome.callback (some m) ∧ m.success = true) := by
  rcases o with msg | err
  · rcases msg with _ | m
    · simp [manualImportFlow]
    · by_cases hs : m.success = true <;> simp_all [manualImportFlow]
  · simp [manualImportFlow]

/-- Claim C8 witness: the manual-import flow theorem applied to a
successful concrete outcome. -/
theorem manual_import_form_state_witness :
    UIAction.enableForm ∈
      manualImportFlow
        (CallOutcome.callback (some { success := true, message := "done" })) :=
  (manual_import_form_state _).2.1

/-- Claim C9: the settings-form connection test makes no RPC dispatch and
only prompts for the URL when the feed URL is empty; otherwise the success
dialog appears exactly when the response message exists with a truthy
success flag, a failing response message yields the failure dialog with
its message, a missing response message yields the failure dialog with
the fallback text, and a transport failure yields the fallback alert. -/
theorem test_connection_flow_spec (url : String) (o : CallOutcome) :
    (url = "" →
        testConnectionFlow url o =
          [UIAction.msgprintSimple "Please enter XML Feed URL first"]
      ∧ ∀ m, UIAction.rpcCall m ∉ testConnectionFlow url o)
  ∧ (url ≠ "" →
        ((∃ s, UIAction.msgprint "Connection Test Successful" s "green"
            ∈ testConnectionFlow url o) ↔
          ∃ m, o = CallOutcome.callback (some m) ∧ m.success = true)
      ∧ (∀ m, o = CallOutcome.callback (some m) → m.success = false →
          UIAction.msgprint "Connection Test Failed" m.message "red"
            ∈ testConnectionFlow url o)
      ∧ (o = CallOutcome.callback none →
          UIAction.msgprint "Connection Test Failed" "Connection test failed"
              "red" ∈ testConnectionFlow url o)
      ∧ (∀ e, o = CallOutcome.failure e →
          UIAction.showAlert "red" "Connection test failed"
            ∈ testConnectionFlow url o)) := by
  refine ⟨?_, ?_⟩ <;> intro hurl
  · simp [testConnectionFlow, hurl]
  · rcases o with msg | err
    · rcases msg with _ | m
      · simp [testConnectionFlow, hurl]
      · by_cases hs : m.success = true <;> simp_all [testConnectionFlow]
    · simp [testConnectionFlow, hurl]

/-- Claim C9 witness: the connection-test flow theorem applied to the
empty URL and a concrete outcome. -/
theorem test_connection_flow_spec_witness :
    testConnectionFlow "" (CallOutcome.callback none) =
      [UIAction.msgprintSimple "Please enter XML Feed URL first"] :=
  ((test_connection_flow_spec "" (CallOutcome.callback none)).1 rfl).1

/-- Claim C10: on the XML Import Configuration form every diagnostic and
importing button except the pasted-content debug button appears exactly when
the document is saved and the feed URL is non-empty, the manual-import
button additionally requires the enabled flag, and the pasted-content
debug button requires only a saved document; the reduced form script
gates its single button the same way as the manual-import button. -/
theorem config_form_button_gating (e : Bool) (u : String) (n : Bool) :
    ("▶️ Trigger Manual Import" ∈ configRefreshButtons e u n ↔
        e = true ∧ u ≠ "" ∧ n = false)
  ∧ ("🔍 Check Stream Length" ∈ configRefreshButtons e u n ↔
        u ≠ "" ∧ n = false)
  ∧ ("🐛 Debug XML Feed" ∈ configRefreshButtons e u n ↔
        u ≠ "" ∧ n = false)
  ∧ ("🎯 Aggressive Import Check" ∈ configRefreshButtons e u n ↔
        u ≠ "" ∧ n = false)
  ∧ ("📋 Debug Import from Pasted XML" ∈ configRefreshButtons e u n ↔
        n = false)
  ∧ ("Trigger Manual Import" ∈ altConfigRefreshButtons e u n ↔
        e = true ∧ u ≠ "" ∧ n = false) := by
  refine ⟨?_, ?_, ?_, ?_, ?_, ?_⟩ <;>
    simp only [configRefreshButtons, altConfigRefreshButtons,
      List.mem_append] <;>
    split_ifs <;> simp_all

/-- Claim C10 witness: the button-gating theorem applied to a saved,
enabled document with a non-empty feed URL. -/
theorem config_form_button_gating_witness :
    "▶️ Trigger Manual Import" ∈
      configRefreshButtons true "http://feed.example/xml" false :=
  (config_form_button_gating true "http://feed.example/xml" false).1.mpr
    ⟨rfl, by simp, rfl⟩
